import Mathlib

/-!
Verification development for the QVerisBot routing core.

Two source modules are embedded:
* src/src/channels/plugins/message-actions.ts  (channel action dispatcher)
* src/src/cron/isolated-agent/delivery-target.ts  (delivery target resolver)

The embedding is shallow: TypeScript optional values become Option, JS string
truthiness (empty string is falsy) is modelled explicitly, thrown errors become
Except.error, and the external collaborators imported by the two modules
(plugin registry, session store, outbound normalizer, channel selection,
bindings) become explicit parameters, mirroring the fact that the embedded
functions only observe their input/output behaviour.
-/

namespace QVerisBot

/-- JS string truthiness for an optional string: present and non-empty. -/
def truthyStr : Option String → Bool
  | some s => s ≠ ""
  | none => false

/-- JS String.prototype.trim, written with structural recursion over the
character list so that concrete inputs evaluate inside the kernel. -/
def jsTrim (s : String) : String :=
  ⟨((s.data.dropWhile Char.isWhitespace).reverse.dropWhile Char.isWhitespace).reverse⟩

/- ## Channel action dispatcher (message-actions.ts) -/

/-- Context for a channel message action (ChannelMessageActionContext),
restricted to the fields the dispatcher reads or rewrites. -/
structure ActionCtx where
  channel : String
  action : String
  requesterSenderId : Option String
  toolContext : Bool
deriving DecidableEq

/-- Declared action capabilities of a channel plugin; every field is optional,
mirroring the duck-typed `actions` object. `Cfg` is the config type, `R` the
action result type. -/
structure ActionsImpl (Cfg R : Type) where
  listActions : Option (Cfg → List String)
  supportsButtons : Option (Cfg → Bool)
  supportsCards : Option (Cfg → Bool)
  supportsAction : Option (String → Bool)
  handleAction : Option (ActionCtx → R)

/-- A loaded channel plugin: an id and an optional `actions` capability set. -/
structure Plugin (Cfg R : Type) where
  id : String
  actions : Option (ActionsImpl Cfg R)

/-- The plugin registry: `plugins` models `listChannelPlugins()` (registration
order), `get` models `getChannelPlugin(channel)`. -/
structure Registry (Cfg R : Type) where
  plugins : List (Plugin Cfg R)
  get : String → Option (Plugin Cfg R)

/-- The static trusted-requester table `trustedRequesterRequiredByChannel`:
discord maps to the set of actions timeout, kick, ban. -/
def trustedRequesterRequiredByChannel (channel : String) : Option (List String) :=
  if channel = "discord" then some ["timeout", "kick", "ban"] else none

/-- `requiresTrustedRequesterSender(ctx)`: the table has an entry for
`ctx.channel` containing `ctx.action`, and `ctx.toolContext` is set. -/
def requiresTrustedRequesterSender (ctx : ActionCtx) : Bool :=
  match trustedRequesterRequiredByChannel ctx.channel with
  | some actions => actions.contains ctx.action && ctx.toolContext
  | none => false

/-- The guard `!ctx.requesterSenderId?.trim()`: absent or whitespace-only. -/
def isBlankRequesterSender (ctx : ActionCtx) : Bool :=
  match ctx.requesterSenderId with
  | some s => jsTrim s = ""
  | none => true

/-- The authorization error message thrown by the dispatcher. -/
def trustedSenderErrorMessage (ctx : ActionCtx) : String :=
  "Trusted sender identity is required for " ++ ctx.channel ++ ":" ++
    ctx.action ++ " in tool-driven contexts."

/-- The cross-channel fallback loop of `dispatchChannelMessageAction`: scan the
loaded plugins in registration order, skip the primary channel, skip plugins
without `handleAction`, skip plugins whose `supportsAction` rejects the action,
and dispatch to the first remaining one with `channel` rewritten to its id. -/
def crossChannelFallback {Cfg R : Type} (ctx : ActionCtx) :
    List (Plugin Cfg R) → Option R
  | [] => none
  | candidate :: rest =>
    if candidate.id = ctx.channel then crossChannelFallback ctx rest
    else
      match candidate.actions with
      | none => crossChannelFallback ctx rest
      | some acts =>
        match acts.handleAction with
        | none => crossChannelFallback ctx rest
        | some handle =>
          match acts.supportsAction with
          | some f =>
            if f ctx.action then some (handle { ctx with channel := candidate.id })
            else crossChannelFallback ctx rest
          | none => some (handle { ctx with channel := candidate.id })

/-- `dispatchChannelMessageAction(ctx)`: authorization gate, then primary
dispatch through the plugin registered for `ctx.channel`, then the
cross-channel fallback loop, and finally `null` (here `Except.ok none`). -/
def dispatchChannelMessageAction {Cfg R : Type} (reg : Registry Cfg R)
    (ctx : ActionCtx) : Except String (Option R) :=
  if requiresTrustedRequesterSender ctx && isBlankRequesterSender ctx then
    Except.error (trustedSenderErrorMessage ctx)
  else
    match reg.get ctx.channel with
    | some plugin =>
      match plugin.actions with
      | some acts =>
        match acts.handleAction with
        | some handle =>
          if (match acts.supportsAction with
              | none => true
              | some f => f ctx.action) then
            Except.ok (some (handle ctx))
          else Except.ok (crossChannelFallback ctx reg.plugins)
        | none => Except.ok (crossChannelFallback ctx reg.plugins)
      | none => Except.ok (crossChannelFallback ctx reg.plugins)
    | none => Except.ok (crossChannelFallback ctx reg.plugins)

/-- `listChannelMessageActions(cfg)`: start from the built-ins send and
broadcast, then add each plugin-declared action, preserving first-insertion
order (JS Set semantics). -/
def listChannelMessageActions {Cfg R : Type} (reg : Registry Cfg R)
    (cfg : Cfg) : List String :=
  reg.plugins.foldl
    (fun acc plugin =>
      match plugin.actions with
      | some acts =>
        match acts.listActions with
        | some f =>
          (f cfg).foldl (fun acc2 a => if acc2.contains a then acc2 else acc2 ++ [a]) acc
        | none => acc
      | none => acc)
    ["send", "broadcast"]

/-- `supportsChannelMessageButtons(cfg)`: some loaded plugin reports button
support. -/
def supportsChannelMessageButtons {Cfg R : Type} (reg : Registry Cfg R)
    (cfg : Cfg) : Bool :=
  reg.plugins.any fun plugin =>
    match plugin.actions with
    | some acts =>
      match acts.supportsButtons with
      | some f => f cfg
      | none => false
    | none => false

/-- `supportsChannelMessageButtonsForChannel(params)`: false for an absent or
empty channel (JS truthiness of `params.channel`), else query the plugin
registered for that channel. -/
def supportsChannelMessageButtonsForChannel {Cfg R : Type} (reg : Registry Cfg R)
    (cfg : Cfg) (channel : Option String) : Bool :=
  if !truthyStr channel then false
  else
    match reg.get (channel.getD "") with
    | some plugin =>
      match plugin.actions with
      | some acts =>
        match acts.supportsButtons with
        | some f => f cfg
        | none => false
      | none => false
    | none => false

/-- `supportsChannelMessageCards(cfg)`: some loaded plugin reports card
support. -/
def supportsChannelMessageCards {Cfg R : Type} (reg : Registry Cfg R)
    (cfg : Cfg) : Bool :=
  reg.plugins.any fun plugin =>
    match plugin.actions with
    | some acts =>
      match acts.supportsCards with
      | some f => f cfg
      | none => false
    | none => false

/-- `supportsChannelMessageCardsForChannel(params)`. -/
def supportsChannelMessageCardsForChannel {Cfg R : Type} (reg : Registry Cfg R)
    (cfg : Cfg) (channel : Option String) : Bool :=
  if !truthyStr channel then false
  else
    match reg.get (channel.getD "") with
    | some plugin =>
      match plugin.actions with
      | some acts =>
        match acts.supportsCards with
        | some f => f cfg
        | none => false
      | none => false
    | none => false

/- ## Refactored dispatcher variant (src/unnamed/part_005)

The variant routes the four button/card capability queries through two
helpers, `supportsMessageFeature` and `supportsMessageFeatureForChannel`;
`listChannelMessageActions` and `dispatchChannelMessageAction` are unchanged.
Embedded in namespace V2, keeping the source names. -/

namespace V2

/-- Helper of the variant: scan loaded plugins, apply `check` to those with a
non-null `actions` object. -/
def supportsMessageFeature {Cfg R : Type} (reg : Registry Cfg R)
    (check : ActionsImpl Cfg R → Bool) : Bool :=
  reg.plugins.any fun plugin =>
    match plugin.actions with
    | some acts => check acts
    | none => false

/-- Helper of the variant: false for an absent or empty channel, else apply
`check` to the registered plugin of that channel when it has actions. -/
def supportsMessageFeatureForChannel {Cfg R : Type} (reg : Registry Cfg R)
    (channel : Option String) (check : ActionsImpl Cfg R → Bool) : Bool :=
  if !truthyStr channel then false
  else
    match reg.get (channel.getD "") with
    | some plugin =>
      match plugin.actions with
      | some acts => check acts
      | none => false
    | none => false

/-- Variant `listChannelMessageActions` (textually identical to the
original). -/
def listChannelMessageActions {Cfg R : Type} (reg : Registry Cfg R)
    (cfg : Cfg) : List String :=
  reg.plugins.foldl
    (fun acc plugin =>
      match plugin.actions with
      | some acts =>
        match acts.listActions with
        | some f =>
          (f cfg).foldl (fun acc2 a => if acc2.contains a then acc2 else acc2 ++ [a]) acc
        | none => acc
      | none => acc)
    ["send", "broadcast"]

/-- Variant `supportsChannelMessageButtons` via `supportsMessageFeature`. -/
def supportsChannelMessageButtons {Cfg R : Type} (reg : Registry Cfg R)
    (cfg : Cfg) : Bool :=
  supportsMessageFeature reg fun acts =>
    match acts.supportsButtons with
    | some f => f cfg
    | none => false

/-- Variant `supportsChannelMessageButtonsForChannel` via
`supportsMessageFeatureForChannel` (the check reads the same cfg). -/
def supportsChannelMessageButtonsForChannel {Cfg R : Type} (reg : Registry Cfg R)
    (cfg : Cfg) (channel : Option String) : Bool :=
  supportsMessageFeatureForChannel reg channel fun acts =>
    match acts.supportsButtons with
    | some f => f cfg
    | none => false

/-- Variant `supportsChannelMessageCards` via `supportsMessageFeature`. -/
def supportsChannelMessageCards {Cfg R : Type} (reg : Registry Cfg R)
    (cfg : Cfg) : Bool :=
  supportsMessageFeature reg fun acts =>
    match acts.supportsCards with
    | some f => f cfg
    | none => false

/-- Variant `supportsChannelMessageCardsForChannel` via
`supportsMessageFeatureForChannel`. -/
def supportsChannelMessageCardsForChannel {Cfg R : Type} (reg : Registry Cfg R)
    (cfg : Cfg) (channel : Option String) : Bool :=
  supportsMessageFeatureForChannel reg channel fun acts =>
    match acts.supportsCards with
    | some f => f cfg
    | none => false

/-- Variant `dispatchChannelMessageAction` (textually identical to the
original). -/
def dispatchChannelMessageAction {Cfg R : Type} (reg : Registry Cfg R)
    (ctx : ActionCtx) : Except String (Option R) :=
  if requiresTrustedRequesterSender ctx && isBlankRequesterSender ctx then
    Except.error (trustedSenderErrorMessage ctx)
  else
    match reg.get ctx.channel with
    | some plugin =>
      match plugin.actions with
      | some acts =>
        match acts.handleAction with
        | some handle =>
          if (match acts.supportsAction with
              | none => true
              | some f => f ctx.action) then
            Except.ok (some (handle ctx))
          else Except.ok (crossChannelFallback ctx reg.plugins)
        | none => Except.ok (crossChannelFallback ctx reg.plugins)
      | none => Except.ok (crossChannelFallback ctx reg.plugins)
    | none => Except.ok (crossChannelFallback ctx reg.plugins)

end V2

/- ## Delivery target resolver (delivery-target.ts) -/

/-- A thread identifier is a string or a number (`threadId?: string | number`).
JS truthiness: the empty string and zero are falsy. -/
inductive JsThreadId where
  | str (s : String)
  | num (n : Int)
deriving DecidableEq

/-- JS truthiness of a thread id value. -/
def JsThreadId.truthy : JsThreadId → Bool
  | .str s => s ≠ ""
  | .num n => n ≠ 0

/-- JS truthiness for an optional thread id. -/
def truthyTid : Option JsThreadId → Bool
  | some t => t.truthy
  | none => false

/-- The resolver result mode: explicit override/origin versus inferred from
session history. -/
inductive Mode where
  | explicit
  | implicit
deriving DecidableEq

/-- Cron delivery mode: origin (the default) or current. -/
inductive DeliveryMode where
  | origin
  | current
deriving DecidableEq

/-- The payload channel field: the sentinel "last" or a concrete channel id. -/
inductive ReqChannel where
  | last
  | ch (c : String)
deriving DecidableEq

/-- The slice of a persisted SessionEntry that delivery resolution reads. -/
structure SessionEntry where
  lastChannel : Option String
  lastTo : Option String
  lastAccountId : Option String
  lastThreadId : Option JsThreadId
deriving DecidableEq

/-- Arguments of `resolveSessionDeliveryTarget` as called by
`resolveDeliveryTarget`. -/
structure SessParams where
  entry : Option SessionEntry
  requestedChannel : ReqChannel
  explicitTo : Option String
  fallbackChannel : Option String
  allowMismatchedLastTo : Bool
  mode : Option Mode
deriving DecidableEq

/-- The record returned by `resolveSessionDeliveryTarget`: candidate
channel/to/accountId/threadId, whether the thread id was explicitly supplied,
the stored last recipient and channel, and the resolution mode. -/
structure Resolved where
  channel : Option String
  «to» : Option String
  accountId : Option String
  threadId : Option JsThreadId
  threadIdExplicit : Bool
  lastTo : Option String
  lastChannel : Option String
  mode : Mode
deriving DecidableEq

/-- Origin context captured at job creation (CronOrigin). -/
structure CronOrigin where
  channel : Option String
  «to» : Option String
  accountId : Option String
  threadId : Option JsThreadId
deriving DecidableEq

/-- Caller-supplied override fields for one delivery. -/
structure JobPayload where
  channel : Option ReqChannel
  «to» : Option String
  sessionKey : Option String
deriving DecidableEq

/-- The optional `options` argument of `resolveDeliveryTarget`. -/
structure ResolveOptions where
  origin : Option CronOrigin
  deliveryMode : Option DeliveryMode
deriving DecidableEq

/-- Arguments of one `resolveOutboundTarget` call (cfg is part of the
environment). -/
structure OutboundParams where
  channel : String
  «to» : String
  accountId : Option String
  mode : Mode
deriving DecidableEq

/-- Result of the Outbound Target Normalizer: a normalized recipient or a
typed error (errors modelled as strings). -/
inductive OutboundResult where
  | ok («to» : String)
  | err (e : String)
deriving DecidableEq

/-- The external collaborators of `resolveDeliveryTarget`, with the config
already applied: the session delivery resolver and outbound normalizer from
targets.ts, the channel-selection collaborator (Except.error models a thrown
failure), the loaded session store keyed by session key, the agent main
session key, the account bindings (empty list when absent), the agent id
normalizer, and the DEFAULT_CHAT_CHANNEL constant. -/
structure Env where
  resolveSession : SessParams → Resolved
  resolveOutbound : OutboundParams → OutboundResult
  channelSelection : Except Unit String
  store : String → Option SessionEntry
  mainSessionKey : String
  bindings : String → String → List String
  normalizeAgentId : String → String
  defaultChatChannel : String

/-- The resolver output (the promise payload of `resolveDeliveryTarget`). -/
structure DeliveryTarget where
  channel : String
  «to» : Option String
  accountId : Option String
  threadId : Option JsThreadId
  mode : Mode
  error : Option String
deriving DecidableEq

/-- `hasExplicitChannel`: the payload channel is a string other than the
"last" sentinel. -/
def hasExplicitChannel (p : JobPayload) : Bool :=
  match p.channel with
  | some (.ch _) => true
  | _ => false

/-- `hasExplicitTo`: the payload `to` is a string with non-empty trim. -/
def hasExplicitTo (p : JobPayload) : Bool :=
  match p.«to» with
  | some s => jsTrim s ≠ ""
  | none => false

/-- `deliveryMode` with its default: `options?.deliveryMode ?? "origin"`. -/
def deliveryModeOf (o : ResolveOptions) : DeliveryMode :=
  o.deliveryMode.getD .origin

/-- The `useOrigin` condition: origin delivery mode, an origin present, no
explicit payload channel or `to`, and the origin has a truthy channel or
`to`. -/
def useOrigin (p : JobPayload) (o : ResolveOptions) : Bool :=
  deliveryModeOf o = .origin && o.origin.isSome &&
    !hasExplicitChannel p && !hasExplicitTo p &&
    (truthyStr (o.origin.bind (·.channel)) || truthyStr (o.origin.bind (·.«to»)))

/-- The guard of the origin short-circuit branch:
`useOrigin && origin.channel && origin.«to»` (JS truthiness). -/
def originShortCircuit (p : JobPayload) (o : ResolveOptions) : Bool :=
  useOrigin p o && truthyStr (o.origin.bind (·.channel)) &&
    truthyStr (o.origin.bind (·.«to»))

/-- Arguments of the normalizer call made on the origin short-circuit path. -/
def originDockArgs (o : ResolveOptions) : OutboundParams :=
  { channel := (o.origin.bind (·.channel)).getD ""
    «to» := (o.origin.bind (·.«to»)).getD ""
    accountId := o.origin.bind (·.accountId)
    mode := .explicit }

/-- The origin short-circuit result: route directly to the origin, with
accountId and threadId copied from the origin and mode explicit. -/
def originResult (env : Env) (o : ResolveOptions) : DeliveryTarget :=
  let docked := env.resolveOutbound (originDockArgs o)
  { channel := (o.origin.bind (·.channel)).getD ""
    «to» := match docked with | OutboundResult.ok t => some t | OutboundResult.err _ => none
    accountId := o.origin.bind (·.accountId)
    threadId := o.origin.bind (·.threadId)
    mode := .explicit
    error := match docked with | OutboundResult.ok _ => none | OutboundResult.err e => some e }

/-- `requestedChannel`: explicit payload channel, else the origin channel when
using origin with a truthy channel, else the sentinel "last". -/
def requestedChannelOf (p : JobPayload) (o : ResolveOptions) : ReqChannel :=
  if hasExplicitChannel p then p.channel.getD .last
  else if useOrigin p o && truthyStr (o.origin.bind (·.channel)) then
    .ch ((o.origin.bind (·.channel)).getD "")
  else .last

/-- `explicitTo`: the payload `to` when explicitly present, else the origin
`to` when using origin with a truthy `to`, else absent. -/
def explicitToOf (p : JobPayload) (o : ResolveOptions) : Option String :=
  if hasExplicitTo p then p.«to»
  else if useOrigin p o && truthyStr (o.origin.bind (·.«to»)) then
    o.origin.bind (·.«to»)
  else none

/-- `allowMismatchedLastTo`: exactly when the requested channel is "last". -/
def allowMismatchedLastToOf (p : JobPayload) (o : ResolveOptions) : Bool :=
  requestedChannelOf p o = .last

/-- The session entry used for resolution: the thread-scoped entry when a
truthy trimmed `sessionKey` is present and found, else the main entry. -/
def mainEntryOf (env : Env) (p : JobPayload) : Option SessionEntry :=
  let threadSessionKey := p.sessionKey.map jsTrim
  let threadEntry :=
    if truthyStr threadSessionKey then env.store (threadSessionKey.getD "")
    else none
  threadEntry <|> env.store env.mainSessionKey

/-- The preliminary resolution (first `resolveSessionDeliveryTarget` call,
with no fallback channel and no mode override). -/
def preliminaryOf (env : Env) (p : JobPayload) (o : ResolveOptions) : Resolved :=
  env.resolveSession
    { entry := mainEntryOf env p
      requestedChannel := requestedChannelOf p o
      explicitTo := explicitToOf p o
      fallbackChannel := none
      allowMismatchedLastTo := allowMismatchedLastToOf p o
      mode := none }

/-- The fallback channel chain: only when the preliminary resolution yields no
truthy channel; prefer the origin channel when using origin, else the
channel-selection collaborator, else (on its failure) the stored last channel,
else DEFAULT_CHAT_CHANNEL. -/
def fallbackChannelOf (env : Env) (p : JobPayload) (o : ResolveOptions) :
    Option String :=
  if !truthyStr (preliminaryOf env p o).channel then
    if useOrigin p o && truthyStr (o.origin.bind (·.channel)) then
      o.origin.bind (·.channel)
    else
      match env.channelSelection with
      | .ok selected => some selected
      | .error _ =>
        some ((preliminaryOf env p o).lastChannel.getD env.defaultChatChannel)
  else none

/-- The final resolution: re-run the session resolver with the fallback
channel injected when a truthy fallback exists, else keep the preliminary
resolution. -/
def resolvedOf (env : Env) (p : JobPayload) (o : ResolveOptions) : Resolved :=
  let fb := fallbackChannelOf env p o
  if truthyStr fb then
    env.resolveSession
      { entry := mainEntryOf env p
        requestedChannel := requestedChannelOf p o
        explicitTo := explicitToOf p o
        fallbackChannel := fb
        allowMismatchedLastTo := allowMismatchedLastToOf p o
        mode := some (preliminaryOf env p o).mode }
  else preliminaryOf env p o

/-- The result channel: `resolved.channel ?? fallbackChannel ??
DEFAULT_CHAT_CHANNEL` (nullish coalescing). -/
def channelOf (env : Env) (p : JobPayload) (o : ResolveOptions) : String :=
  match (resolvedOf env p o).channel with
  | some c => c
  | none => (fallbackChannelOf env p o).getD env.defaultChatChannel

/-- The result accountId: the resolved accountId, or the first bound account
for (channel, normalized agent id) when the resolved one is falsy and the
channel is truthy. -/
def accountIdOf (env : Env) (agentId : String) (p : JobPayload)
    (o : ResolveOptions) : Option String :=
  let resolved := resolvedOf env p o
  let channel := channelOf env p o
  if !truthyStr resolved.accountId && channel ≠ "" then
    match env.bindings channel (env.normalizeAgentId agentId) with
    | [] => resolved.accountId
    | a :: _ => some a
  else resolved.accountId

/-- The thread-id leak guard: carry `resolved.threadId` only when it is truthy
and either explicitly supplied or the resolved `to` is truthy and equal to the
stored last recipient. -/
def threadIdOf (env : Env) (p : JobPayload) (o : ResolveOptions) :
    Option JsThreadId :=
  let resolved := resolvedOf env p o
  if truthyTid resolved.threadId &&
      (resolved.threadIdExplicit ||
        (truthyStr resolved.«to» && resolved.«to» == resolved.lastTo)) then
    resolved.threadId
  else none

/-- Arguments of the normalizer call made on the session path (only made when
the `to` candidate is truthy). -/
def mainDockArgs (env : Env) (agentId : String) (p : JobPayload)
    (o : ResolveOptions) : OutboundParams :=
  { channel := channelOf env p o
    «to» := (resolvedOf env p o).«to».getD ""
    accountId := accountIdOf env agentId p o
    mode := (resolvedOf env p o).mode }

/-- The session-path result of `resolveDeliveryTarget`: partial result when no
truthy `to` candidate exists, else normalize and report rejection through the
`error` field. -/
def mainPathResult (env : Env) (agentId : String) (p : JobPayload)
    (o : ResolveOptions) : DeliveryTarget :=
  let resolved := resolvedOf env p o
  let channel := channelOf env p o
  let accountId := accountIdOf env agentId p o
  let threadId := threadIdOf env p o
  if !truthyStr resolved.«to» then
    { channel := channel
      «to» := none
      accountId := accountId
      threadId := threadId
      mode := resolved.mode
      error := none }
  else
    let docked := env.resolveOutbound (mainDockArgs env agentId p o)
    { channel := channel
      «to» := match docked with | OutboundResult.ok t => some t | OutboundResult.err _ => none
      accountId := accountId
      threadId := threadId
      mode := resolved.mode
      error := match docked with | OutboundResult.ok _ => none | OutboundResult.err e => some e }

/-- `resolveDeliveryTarget(cfg, agentId, jobPayload, options)`: origin
short-circuit, else session-based resolution. The function is total: ordinary
resolution failures are reported through the `error` field, never thrown. -/
def resolveDeliveryTarget (env : Env) (agentId : String) (p : JobPayload)
    (o : ResolveOptions) : DeliveryTarget :=
  if originShortCircuit p o then originResult env o
  else mainPathResult env agentId p o

/-- The normalizer call made during one resolution, if any: the origin-path
call, the session-path call when a truthy `to` candidate exists, else none. -/
def normalizerOutcomeOf (env : Env) (agentId : String) (p : JobPayload)
    (o : ResolveOptions) : Option OutboundResult :=
  if originShortCircuit p o then some (env.resolveOutbound (originDockArgs o))
  else if truthyStr (resolvedOf env p o).«to» then
    some (env.resolveOutbound (mainDockArgs env agentId p o))
  else none

/-- Modelled from the spec: the repository function
`resolveSessionDeliveryTarget` lives in src/infra/outbound/targets.ts, which
is not included under src/. Following spec section 4.1 steps 4 and 5: derive a
candidate channel, recipient, account and thread id from the session entry
last-used fields, honoring the requested channel (exact match required unless
allowMismatchedLastTo) and the explicit recipient (which overrides the stored
one when present); the fallback channel is injected when the "last" request
finds no stored channel. Session-derived thread ids are not explicit, and the
mode is explicit exactly when an explicit recipient was supplied, unless a
mode override is passed. -/
def resolveSessionDeliveryTargetModel (p : SessParams) : Resolved :=
  let lastChannel := p.entry.bind (·.lastChannel)
  let lastTo := p.entry.bind (·.lastTo)
  let channel : Option String :=
    match p.requestedChannel with
    | .ch c => some c
    | .last => lastChannel <|> p.fallbackChannel
  let channelMatches :=
    match channel, lastChannel with
    | some c, some lc => c == lc
    | _, _ => false
  let storedUsable := p.entry.isSome && (p.allowMismatchedLastTo || channelMatches)
  { channel := channel
    «to» := p.explicitTo <|> (if storedUsable then lastTo else none)
    accountId := if storedUsable then p.entry.bind (·.lastAccountId) else none
    threadId := if storedUsable then p.entry.bind (·.lastThreadId) else none
    threadIdExplicit := false
    lastTo := lastTo
    lastChannel := lastChannel
    mode := p.mode.getD (if p.explicitTo.isSome then .explicit else .implicit) }

/- ## Dispatcher helper predicates for the theorems -/

/-- A plugin can perform an action: it has a handler and its optional
`supportsAction` check accepts the action. -/
def pluginAcceptsAction {Cfg R : Type} (c : Plugin Cfg R) (a : String) : Bool :=
  match c.actions with
  | some acts =>
    acts.handleAction.isSome &&
      (match acts.supportsAction with
       | none => true
       | some f => f a)
  | none => false

/-- Invoke the handler of a plugin, when present. -/
def applyPluginHandler {Cfg R : Type} (c : Plugin Cfg R) (ctx : ActionCtx) :
    Option R :=
  match c.actions with
  | some acts => acts.handleAction.map (fun h => h ctx)
  | none => none

/-- The plugin registered for the context channel can perform the action. -/
def primaryCanHandle {Cfg R : Type} (reg : Registry Cfg R) (ctx : ActionCtx) :
    Bool :=
  match reg.get ctx.channel with
  | some plugin => pluginAcceptsAction plugin ctx.action
  | none => false

def entryT : SessionEntry := ⟨some "feishu", some "oc_1", none, some (.str "t9")⟩

def envT : Env :=
  { resolveSession := resolveSessionDeliveryTargetModel
    resolveOutbound := fun a => OutboundResult.ok a.«to»
    channelSelection := Except.ok "discord"
    store := fun k => if k = "main" then some entryT else none
    mainSessionKey := "main"
    bindings := fun _ _ => []
    normalizeAgentId := fun s => s
    defaultChatChannel := "telegram" }

example : resolveDeliveryTarget envT "main" ⟨some .last, none, none⟩ ⟨none, none⟩ =
    ⟨"feishu", some "oc_1", none, some (.str "t9"), .implicit, none⟩ := by decide

def envT2 : Env :=
  { resolveSession := resolveSessionDeliveryTargetModel
    resolveOutbound := fun a => OutboundResult.ok a.«to»
    channelSelection := Except.error ()
    store := fun _ => none
    mainSessionKey := "main"
    bindings := fun _ _ => []
    normalizeAgentId := fun s => s
    defaultChatChannel := "telegram" }

example : resolveDeliveryTarget envT2 "main" ⟨none, none, none⟩ ⟨none, none⟩ =
    ⟨"telegram", none, none, none, .implicit, none⟩ := by decide

example : resolveDeliveryTarget envT "main" ⟨none, none, none⟩
    ⟨some ⟨some "telegram", some "123", none, none⟩, none⟩ =
    ⟨"telegram", some "123", none, none, .explicit, none⟩ := by decide

example : resolveDeliveryTarget envT2 "main" ⟨none, none, none⟩ ⟨none, some .current⟩ =
    ⟨"telegram", none, none, none, .implicit, none⟩ := by decide

theorem dispatch_ok_of_gate_false {Cfg R : Type} (reg : Registry Cfg R)
    (ctx : ActionCtx)
    (h : (requiresTrustedRequesterSender ctx && isBlankRequesterSender ctx) = false) :
    ∃ v, dispatchChannelMessageAction reg ctx = Except.ok v := by
  unfold dispatchChannelMessageAction
  rw [if_neg (by simp [h])]
  repeat' split
  all_goals exact ⟨_, rfl⟩

theorem dispatch_eq_fallback {Cfg R : Type} (reg : Registry Cfg R)
    (ctx : ActionCtx)
    (hgate : (requiresTrustedRequesterSender ctx && isBlankRequesterSender ctx) = false)
    (hprimary : primaryCanHandle reg ctx = false) :
    dispatchChannelMessageAction reg ctx =
      Except.ok (crossChannelFallback ctx reg.plugins) := by
  unfold dispatchChannelMessageAction
  rw [if_neg (by simp [hgate])]
  unfold primaryCanHandle pluginAcceptsAction at hprimary
  split
  next plugin hg =>
    rw [hg] at hprimary
    dsimp only at hprimary
    split
    next acts hca =>
      rw [hca] at hprimary
      dsimp only at hprimary
      split
      next handle hh =>
        rw [hh] at hprimary
        simp only [Option.isSome_some, Bool.true_and] at hprimary
        rw [if_neg (by simp [hprimary])]
      next hh => rfl
    next hca => rfl
  next hg => rfl

theorem crossChannelFallback_eq_find {Cfg R : Type} (ctx : ActionCtx)
    (l : List (Plugin Cfg R)) :
    crossChannelFallback ctx l =
      match l.find? (fun c => !(c.id == ctx.channel) && pluginAcceptsAction c ctx.action) with
      | some c => applyPluginHandler c { ctx with channel := c.id }
      | none => none := by
  induction l with
  | nil => rfl
  | cons c rest ih =>
    unfold crossChannelFallback
    rw [List.find?_cons]
    by_cases hid : c.id = ctx.channel
    · have hp : (!(c.id == ctx.channel) && pluginAcceptsAction c ctx.action) = false := by
        simp [hid]
      rw [if_pos hid, hp]
      dsimp only
      exact ih
    · rw [if_neg hid]
      cases hca : c.actions with
      | none =>
        have hp : (!(c.id == ctx.channel) && pluginAcceptsAction c ctx.action) = false := by
          simp [pluginAcceptsAction, hca]
        rw [hp]
        dsimp only
        exact ih
      | some acts =>
        dsimp only
        cases hh : acts.handleAction with
        | none =>
          have hp : (!(c.id == ctx.channel) && pluginAcceptsAction c ctx.action) = false := by
            simp [pluginAcceptsAction, hca, hh]
          rw [hp]
          dsimp only
          exact ih
        | some handle =>
          dsimp only
          cases hs : acts.supportsAction with
          | none =>
            have hp : (!(c.id == ctx.channel) && pluginAcceptsAction c ctx.action) = true := by
              simp [pluginAcceptsAction, hca, hh, hs, hid]
            rw [hp]
            dsimp only
            simp [applyPluginHandler, hca, hh]
          | some f =>
            dsimp only
            by_cases hf : f ctx.action = true
            · have hp : (!(c.id == ctx.channel) && pluginAcceptsAction c ctx.action) = true := by
                simp [pluginAcceptsAction, hca, hh, hs, hid, hf]
              rw [if_pos hf, hp]
              dsimp only
              simp [applyPluginHandler, hca, hh]
            · have hp : (!(c.id == ctx.channel) && pluginAcceptsAction c ctx.action) = false := by
                simp [pluginAcceptsAction, hca, hh, hs, hf]
              rw [if_neg hf, hp]
              dsimp only
              exact ih


/-- C4: dispatchChannelMessageAction throws an authorization error exactly
when the action is in the trusted-requester table for the context channel
(discord: timeout, kick, ban), the tool-context flag is set, and the requester
sender id is blank; with a non-blank requester or outside tool context it does
not throw. -/
theorem dispatch_authorization_gate {Cfg R : Type} (reg : Registry Cfg R)
    (ctx : ActionCtx) :
    (∃ e, dispatchChannelMessageAction reg ctx = Except.error e) ↔
      requiresTrustedRequesterSender ctx = true ∧
        isBlankRequesterSender ctx = true := by
  constructor
  · rintro ⟨e, he⟩
    by_contra hcon
    have h : (requiresTrustedRequesterSender ctx && isBlankRequesterSender ctx) = false := by
      cases hb : (requiresTrustedRequesterSender ctx && isBlankRequesterSender ctx) with
      | false => rfl
      | true =>
        rw [Bool.and_eq_true] at hb
        exact absurd hb hcon
    obtain ⟨v, hv⟩ := dispatch_ok_of_gate_false reg ctx h
    rw [hv] at he
    cases he
  · rintro ⟨h1, h2⟩
    refine ⟨trustedSenderErrorMessage ctx, ?_⟩
    unfold dispatchChannelMessageAction
    rw [if_pos (by simp [h1, h2])]

/-- C5: when the primary plugin cannot perform the action (not registered, no
handler, or unsupported) and the gate does not fire, dispatch goes to the
first other loaded plugin, in registration order, whose supportsAction check
(or its absence) accepts the action, with the context channel rewritten to
that plugin id. -/
theorem dispatch_cross_channel_fallback {Cfg R : Type} (reg : Registry Cfg R)
    (ctx : ActionCtx)
    (hgate : (requiresTrustedRequesterSender ctx && isBlankRequesterSender ctx) = false)
    (hprimary : primaryCanHandle reg ctx = false) :
    dispatchChannelMessageAction reg ctx =
      Except.ok
        (match reg.plugins.find?
            (fun c => !(c.id == ctx.channel) && pluginAcceptsAction c ctx.action) with
         | some c => applyPluginHandler c { ctx with channel := c.id }
         | none => none) := by
  rw [dispatch_eq_fallback reg ctx hgate hprimary, crossChannelFallback_eq_find]

/-- C8: when no plugin at all can perform the action, dispatch returns the
typed null outcome instead of throwing. -/
theorem dispatch_unsupported_action_null {Cfg R : Type} (reg : Registry Cfg R)
    (ctx : ActionCtx)
    (hgate : (requiresTrustedRequesterSender ctx && isBlankRequesterSender ctx) = false)
    (hprimary : primaryCanHandle reg ctx = false)
    (hall : ∀ c ∈ reg.plugins, c.id ≠ ctx.channel →
      pluginAcceptsAction c ctx.action = false) :
    dispatchChannelMessageAction reg ctx = Except.ok none := by
  rw [dispatch_eq_fallback reg ctx hgate hprimary, crossChannelFallback_eq_find]
  have hfind : reg.plugins.find?
      (fun c => !(c.id == ctx.channel) && pluginAcceptsAction c ctx.action) = none := by
    rw [List.find?_eq_none]
    intro c hc
    by_cases h : c.id = ctx.channel
    · simp [h]
    · simp [h, hall c hc h]
  rw [hfind]

/-- C9: the original message-actions module and the part_005 variant agree on
every exported function, for every registry, config, channel and context. The
variant passes its whole params record where the original passes only the cfg
field; since the capability checks are functions of the cfg alone, the two
calls coincide in the embedding. -/
theorem message_actions_variant_equiv {Cfg R : Type} (reg : Registry Cfg R)
    (cfg : Cfg) (channel : Option String) (ctx : ActionCtx) :
    listChannelMessageActions reg cfg = V2.listChannelMessageActions reg cfg ∧
    supportsChannelMessageButtons reg cfg = V2.supportsChannelMessageButtons reg cfg ∧
    supportsChannelMessageButtonsForChannel reg cfg channel =
      V2.supportsChannelMessageButtonsForChannel reg cfg channel ∧
    supportsChannelMessageCards reg cfg = V2.supportsChannelMessageCards reg cfg ∧
    supportsChannelMessageCardsForChannel reg cfg channel =
      V2.supportsChannelMessageCardsForChannel reg cfg channel ∧
    dispatchChannelMessageAction reg ctx =
      V2.dispatchChannelMessageAction (R := R) reg ctx :=
  ⟨rfl, rfl, rfl, rfl, rfl, rfl⟩

/- Concrete dispatcher scenario: plugin A rejects the action ping, plugin B
accepts it. -/

/-- Witness plugin that declines every action. -/
def pluginA : Plugin Unit Nat :=
  ⟨"A", some ⟨none, none, none, some (fun _ => false), some (fun _ => 1)⟩⟩

/-- Witness plugin that accepts exactly the action ping. -/
def pluginB : Plugin Unit Nat :=
  ⟨"B", some ⟨none, none, none, some (fun a => a == "ping"), some (fun _ => 2)⟩⟩

/-- Witness registry loading plugins A then B. -/
def regAB : Registry Unit Nat :=
  ⟨[pluginA, pluginB],
    fun ch => if ch = "A" then some pluginA else if ch = "B" then some pluginB else none⟩

/-- Witness context: action ping on channel A, outside tool context. -/
def ctxPing : ActionCtx := ⟨"A", "ping", some "user-1", false⟩

/-- Witness context: an action no loaded plugin supports. -/
def ctxZap : ActionCtx := ⟨"A", "zap", some "user-1", false⟩

/-- C5 witness: dispatching ping on channel A lands on plugin B and yields
its result. -/
theorem dispatch_cross_channel_fallback_witness :
    (requiresTrustedRequesterSender ctxPing && isBlankRequesterSender ctxPing) = false ∧
    primaryCanHandle regAB ctxPing = false ∧
    dispatchChannelMessageAction regAB ctxPing = Except.ok (some 2) := by
  refine ⟨by decide, by decide, ?_⟩
  rw [dispatch_cross_channel_fallback regAB ctxPing (by decide) (by decide)]
  rfl

/-- C8 witness: dispatching an action no plugin supports yields the null
outcome. -/
theorem dispatch_unsupported_action_null_witness :
    dispatchChannelMessageAction regAB ctxZap = Except.ok none :=
  dispatch_unsupported_action_null regAB ctxZap (by decide) (by decide) (by decide)

/- ## Resolver lemmas and claim theorems -/

/-- Outside the origin short-circuit, resolution goes through the session
path. -/
theorem resolveDeliveryTarget_session_path (env : Env) (agentId : String)
    (p : JobPayload) (o : ResolveOptions) (h : originShortCircuit p o = false) :
    resolveDeliveryTarget env agentId p o = mainPathResult env agentId p o := by
  unfold resolveDeliveryTarget
  rw [if_neg (by simp [h])]

/-- The session-path result carries exactly the guarded thread id. -/
theorem mainPathResult_threadId (env : Env) (agentId : String) (p : JobPayload)
    (o : ResolveOptions) :
    (mainPathResult env agentId p o).threadId = threadIdOf env p o := by
  unfold mainPathResult
  dsimp only
  split <;> rfl

/-- The session-path result carries exactly the resolved channel. -/
theorem mainPathResult_channel (env : Env) (agentId : String) (p : JobPayload)
    (o : ResolveOptions) :
    (mainPathResult env agentId p o).channel = channelOf env p o := by
  unfold mainPathResult
  dsimp only
  split <;> rfl

/-- The session-path result carries exactly the resolved mode. -/
theorem mainPathResult_mode (env : Env) (agentId : String) (p : JobPayload)
    (o : ResolveOptions) :
    (mainPathResult env agentId p o).mode = (resolvedOf env p o).mode := by
  unfold mainPathResult
  dsimp only
  split <;> rfl

/-- C1: on the session path, a resolved thread id reaches the result only
when it was explicitly supplied or the resolved recipient equals the stored
last recipient; in particular, when the recipient differs from the stored one
and no explicit thread id was supplied, the result thread id is undefined. -/
theorem thread_id_leak_guard (env : Env) (agentId : String) (p : JobPayload)
    (o : ResolveOptions) (horigin : originShortCircuit p o = false) :
    ((resolveDeliveryTarget env agentId p o).threadId.isSome = true →
        (resolvedOf env p o).threadIdExplicit = true ∨
          (truthyStr (resolvedOf env p o).«to» = true ∧
            (resolvedOf env p o).«to» = (resolvedOf env p o).lastTo)) ∧
      ((resolvedOf env p o).threadIdExplicit = false →
        (resolvedOf env p o).«to» ≠ (resolvedOf env p o).lastTo →
        (resolveDeliveryTarget env agentId p o).threadId = none) := by
  have hres : (resolveDeliveryTarget env agentId p o).threadId = threadIdOf env p o := by
    rw [resolveDeliveryTarget_session_path env agentId p o horigin,
      mainPathResult_threadId]
  constructor
  · intro hsome
    rw [hres] at hsome
    unfold threadIdOf at hsome
    dsimp only at hsome
    by_cases hc : (truthyTid (resolvedOf env p o).threadId &&
        ((resolvedOf env p o).threadIdExplicit ||
          (truthyStr (resolvedOf env p o).«to» &&
            ((resolvedOf env p o).«to» == (resolvedOf env p o).lastTo)))) = true
    · rw [Bool.and_eq_true, Bool.or_eq_true, Bool.and_eq_true] at hc
      rcases hc.2 with h | ⟨h1, h2⟩
      · exact Or.inl h
      · exact Or.inr ⟨h1, by simpa [beq_iff_eq] using h2⟩
    · rw [if_neg hc] at hsome
      simp at hsome
  · intro hexp hneq
    rw [hres]
    unfold threadIdOf
    dsimp only
    have hb : ((resolvedOf env p o).«to» == (resolvedOf env p o).lastTo) = false :=
      beq_eq_false_iff_ne.mpr hneq
    rw [if_neg (by simp [hexp, hb])]

/-- C1 witness context and application at a concrete input. -/
theorem thread_id_leak_guard_witness :
    originShortCircuit ⟨some .last, some "other", none⟩ ⟨none, none⟩ = false ∧
    (resolvedOf envT ⟨some .last, some "other", none⟩ ⟨none, none⟩).threadIdExplicit = false ∧
    (resolvedOf envT ⟨some .last, some "other", none⟩ ⟨none, none⟩).«to» ≠
      (resolvedOf envT ⟨some .last, some "other", none⟩ ⟨none, none⟩).lastTo ∧
    (resolveDeliveryTarget envT "main" ⟨some .last, some "other", none⟩
      ⟨none, none⟩).threadId = none := by
  refine ⟨by decide, by decide, by decide, ?_⟩
  exact (thread_id_leak_guard envT "main" ⟨some .last, some "other", none⟩
    ⟨none, none⟩ (by decide)).2 (by decide) (by decide)

/-- C2: whenever the resolver returns a recipient, that recipient is the
output of a successful Outbound Target Normalizer call for the result
channel. -/
theorem delivery_to_passed_normalizer (env : Env) (agentId : String)
    (p : JobPayload) (o : ResolveOptions) (s : String)
    (h : (resolveDeliveryTarget env agentId p o).«to» = some s) :
    ∃ args : OutboundParams,
      args.channel = (resolveDeliveryTarget env agentId p o).channel ∧
      env.resolveOutbound args = OutboundResult.ok s := by
  unfold resolveDeliveryTarget at h ⊢
  by_cases ho : originShortCircuit p o = true
  · rw [if_pos ho] at h ⊢
    unfold originResult at h ⊢
    dsimp only at h ⊢
    cases hd : env.resolveOutbound (originDockArgs o) with
    | ok t =>
      rw [hd] at h
      dsimp only at h
      obtain rfl : t = s := Option.some.inj h
      exact ⟨originDockArgs o, rfl, hd⟩
    | err e =>
      rw [hd] at h
      dsimp only at h
      exact absurd h (by simp)
  · rw [if_neg ho] at h ⊢
    unfold mainPathResult at h ⊢
    dsimp only at h ⊢
    by_cases htc : (!truthyStr (resolvedOf env p o).«to») = true
    · rw [if_pos htc] at h
      simp at h
    · rw [if_neg htc] at h ⊢
      dsimp only at h ⊢
      cases hd : env.resolveOutbound (mainDockArgs env agentId p o) with
      | ok t =>
        rw [hd] at h
        dsimp only at h
        obtain rfl : t = s := Option.some.inj h
        exact ⟨mainDockArgs env agentId p o, rfl, hd⟩
      | err e =>
        rw [hd] at h
        dsimp only at h
        exact absurd h (by simp)

/-- C2 witness. -/
theorem delivery_to_passed_normalizer_witness :
    (resolveDeliveryTarget envT "main" ⟨some .last, none, none⟩ ⟨none, none⟩).«to» =
      some "oc_1" ∧
    ∃ args : OutboundParams,
      args.channel =
        (resolveDeliveryTarget envT "main" ⟨some .last, none, none⟩ ⟨none, none⟩).channel ∧
      envT.resolveOutbound args = OutboundResult.ok "oc_1" := by
  refine ⟨by decide, ?_⟩
  exact delivery_to_passed_normalizer envT "main" ⟨some .last, none, none⟩
    ⟨none, none⟩ "oc_1" (by decide)

/-- C3: with origin delivery mode, an origin carrying both channel and
recipient, and no explicit payload channel or recipient, resolution returns
exactly the normalized origin target with accountId and threadId copied from
the origin and mode explicit, independently of the session store and the
other collaborators. -/
theorem origin_short_circuit_exact (env : Env) (agentId : String) (p : JobPayload)
    (o : ResolveOptions) (orig : CronOrigin)
    (hor : o.origin = some orig) (hmode : deliveryModeOf o = .origin)
    (hch : truthyStr orig.channel = true) (hto : truthyStr orig.«to» = true)
    (hec : hasExplicitChannel p = false) (het : hasExplicitTo p = false) :
    resolveDeliveryTarget env agentId p o =
      { channel := orig.channel.getD ""
        «to» := match env.resolveOutbound
            ⟨orig.channel.getD "", orig.«to».getD "", orig.accountId, Mode.explicit⟩ with
          | OutboundResult.ok t => some t
          | OutboundResult.err _ => none
        accountId := orig.accountId
        threadId := orig.threadId
        mode := Mode.explicit
        error := match env.resolveOutbound
            ⟨orig.channel.getD "", orig.«to».getD "", orig.accountId, Mode.explicit⟩ with
          | OutboundResult.ok _ => none
          | OutboundResult.err e => some e } ∧
    ∀ env2 : Env, env2.resolveOutbound = env.resolveOutbound →
      resolveDeliveryTarget env2 agentId p o = resolveDeliveryTarget env agentId p o := by
  have hsc : originShortCircuit p o = true := by
    unfold originShortCircuit useOrigin
    simp [hor, hmode, hec, het, hch, hto]
  constructor
  · unfold resolveDeliveryTarget
    rw [if_pos hsc]
    unfold originResult originDockArgs
    rw [hor]
    rfl
  · intro env2 h2
    unfold resolveDeliveryTarget
    rw [if_pos hsc, if_pos hsc]
    unfold originResult
    rw [h2]

/-- C3 witness. -/
theorem origin_short_circuit_exact_witness :
    resolveDeliveryTarget envT "main" ⟨none, none, none⟩
        ⟨some ⟨some "telegram", some "123", none, none⟩, none⟩ =
      { channel := "telegram", «to» := some "123", accountId := none,
        threadId := none, mode := Mode.explicit, error := none } := by
  have h := (origin_short_circuit_exact envT "main" ⟨none, none, none⟩
      ⟨some ⟨some "telegram", some "123", none, none⟩, none⟩
      ⟨some "telegram", some "123", none, none⟩ rfl (by decide) (by decide)
      (by decide) (by decide) (by decide)).1
  rw [h]
  rfl

/-- C7: resolution never throws; when the normalizer rejects the candidate
the result carries the normalizer error and no recipient, and when no
candidate exists at all the result is a partial target with no error. -/
theorem resolution_error_reporting (env : Env) (agentId : String) (p : JobPayload)
    (o : ResolveOptions) :
    (∀ e, normalizerOutcomeOf env agentId p o = some (OutboundResult.err e) →
      (resolveDeliveryTarget env agentId p o).error = some e ∧
        (resolveDeliveryTarget env agentId p o).«to» = none) ∧
    (normalizerOutcomeOf env agentId p o = none →
      (resolveDeliveryTarget env agentId p o).error = none ∧
        (resolveDeliveryTarget env agentId p o).«to» = none) := by
  unfold normalizerOutcomeOf resolveDeliveryTarget
  by_cases ho : originShortCircuit p o = true
  · rw [if_pos ho, if_pos ho]
    constructor
    · intro e he
      have hd : env.resolveOutbound (originDockArgs o) = OutboundResult.err e :=
        Option.some.inj he
      unfold originResult
      dsimp only
      rw [hd]
      exact ⟨rfl, rfl⟩
    · intro hnone
      simp at hnone
  · rw [if_neg ho, if_neg ho]
    by_cases htc : truthyStr (resolvedOf env p o).«to» = true
    · rw [if_pos htc]
      constructor
      · intro e he
        have hd : env.resolveOutbound (mainDockArgs env agentId p o) =
            OutboundResult.err e := Option.some.inj he
        unfold mainPathResult
        dsimp only
        rw [if_neg (by simp [htc]), hd]
        exact ⟨rfl, rfl⟩
      · intro hnone
        simp at hnone
    · rw [if_neg htc]
      constructor
      · intro e he
        simp at he
      · intro _
        have htf : truthyStr (resolvedOf env p o).«to» = false :=
          Bool.eq_false_iff.mpr htc
        unfold mainPathResult
        dsimp only
        rw [if_pos (by simp [htf])]
        exact ⟨rfl, rfl⟩

/-- Environment whose outbound normalizer rejects every recipient. -/
def envRej : Env := { envT with resolveOutbound := fun _ => OutboundResult.err "bad" }

/-- C7 witness. -/
theorem resolution_error_reporting_witness :
    normalizerOutcomeOf envRej "main" ⟨some .last, none, none⟩ ⟨none, none⟩ =
      some (OutboundResult.err "bad") ∧
    (resolveDeliveryTarget envRej "main" ⟨some .last, none, none⟩ ⟨none, none⟩).error =
      some "bad" ∧
    (resolveDeliveryTarget envRej "main" ⟨some .last, none, none⟩ ⟨none, none⟩).«to» =
      none := by
  have h := (resolution_error_reporting envRej "main" ⟨some .last, none, none⟩
    ⟨none, none⟩).1 "bad" (by decide)
  exact ⟨by decide, h.1, h.2⟩

/-- C6: when the preliminary resolution yields no channel, the fallback
channel is chosen in order: origin channel when using origin, else the
channel-selection default, else (on its failure) the stored last channel,
else the global default; concretely, with no origin, no session entry and a
configured default discord, resolution yields channel discord. -/
theorem fallback_channel_chain (env : Env) (agentId : String) (p : JobPayload)
    (o : ResolveOptions) :
    (truthyStr (preliminaryOf env p o).channel = false →
      (useOrigin p o && truthyStr (o.origin.bind (·.channel))) = true →
      fallbackChannelOf env p o = o.origin.bind (·.channel)) ∧
    (truthyStr (preliminaryOf env p o).channel = false →
      (useOrigin p o && truthyStr (o.origin.bind (·.channel))) = false →
      ∀ c, env.channelSelection = Except.ok c →
        fallbackChannelOf env p o = some c) ∧
    (truthyStr (preliminaryOf env p o).channel = false →
      (useOrigin p o && truthyStr (o.origin.bind (·.channel))) = false →
      ∀ u, env.channelSelection = Except.error u →
        fallbackChannelOf env p o =
          some ((preliminaryOf env p o).lastChannel.getD env.defaultChatChannel)) ∧
    (env.resolveSession = resolveSessionDeliveryTargetModel →
      o.origin = none → hasExplicitChannel p = false →
      mainEntryOf env p = none → env.channelSelection = Except.ok "discord" →
      (resolveDeliveryTarget env agentId p o).channel = "discord") := by
  refine ⟨?_, ?_, ?_, ?_⟩
  · intro hpre huse
    unfold fallbackChannelOf
    rw [if_pos (by simp [hpre]), if_pos huse]
  · intro hpre huse c hsel
    unfold fallbackChannelOf
    rw [if_pos (by simp [hpre]), if_neg (by simp [huse]), hsel]
  · intro hpre huse u hsel
    unfold fallbackChannelOf
    rw [if_pos (by simp [hpre]), if_neg (by simp [huse]), hsel]
  · intro hsess hor hec hmain hsel
    have husen : useOrigin p o = false := by
      unfold useOrigin
      simp [hor]
    have hosc : originShortCircuit p o = false := by
      unfold originShortCircuit
      simp [husen]
    have hreq : requestedChannelOf p o = .last := by
      unfold requestedChannelOf
      rw [if_neg (by simp [hec]), if_neg (by simp [husen])]
    have hprelim : preliminaryOf env p o =
        resolveSessionDeliveryTargetModel
          { entry := none
            requestedChannel := .last
            explicitTo := explicitToOf p o
            fallbackChannel := none
            allowMismatchedLastTo := allowMismatchedLastToOf p o
            mode := none } := by
      unfold preliminaryOf
      rw [hsess, hmain, hreq]
    have hpch : (preliminaryOf env p o).channel = none := by
      rw [hprelim]
      rfl
    have hfb : fallbackChannelOf env p o = some "discord" := by
      unfold fallbackChannelOf
      rw [hpch]
      rw [if_pos (by simp [truthyStr]), if_neg (by simp [husen]), hsel]
    have hres : (resolvedOf env p o).channel = some "discord" := by
      unfold resolvedOf
      rw [hfb, if_pos (by simp [truthyStr]), hsess, hmain, hreq]
      rfl
    rw [resolveDeliveryTarget_session_path env agentId p o hosc,
      mainPathResult_channel]
    unfold channelOf
    rw [hres]

/-- Environment for the C6 witness: empty store, configured default channel
discord. -/
def envD : Env :=
  { resolveSession := resolveSessionDeliveryTargetModel
    resolveOutbound := fun a => OutboundResult.ok a.«to»
    channelSelection := Except.ok "discord"
    store := fun _ => none
    mainSessionKey := "main"
    bindings := fun _ _ => []
    normalizeAgentId := fun s => s
    defaultChatChannel := "telegram" }

/-- C6 witness. -/
theorem fallback_channel_chain_witness :
    (resolveDeliveryTarget envD "main" ⟨none, none, none⟩ ⟨none, none⟩).channel =
      "discord" :=
  (fallback_channel_chain envD "main" ⟨none, none, none⟩ ⟨none, none⟩).2.2.2
    rfl rfl (by decide) (by decide) rfl

/-- C10: a whitespace-only payload recipient behaves exactly like an absent
one: it is not an explicit recipient, does not block the origin
short-circuit, and is never passed to the normalizer. -/
theorem whitespace_to_treated_as_absent (env : Env) (agentId : String)
    (pc : Option ReqChannel) (w : String) (pk : Option String)
    (o : ResolveOptions) (hw : jsTrim w = "") :
    resolveDeliveryTarget env agentId ⟨pc, some w, pk⟩ o =
      resolveDeliveryTarget env agentId ⟨pc, none, pk⟩ o := by
  have h2 : hasExplicitTo ⟨pc, some w, pk⟩ = false := by
    simp [hasExplicitTo, hw]
  have h3 : useOrigin ⟨pc, some w, pk⟩ o = useOrigin ⟨pc, none, pk⟩ o := by
    unfold useOrigin
    rw [h2]
    try rfl
  have hosc : originShortCircuit ⟨pc, some w, pk⟩ o =
      originShortCircuit ⟨pc, none, pk⟩ o := by
    unfold originShortCircuit
    rw [h3]
    try rfl
  have hreq : requestedChannelOf ⟨pc, some w, pk⟩ o =
      requestedChannelOf ⟨pc, none, pk⟩ o := by
    unfold requestedChannelOf
    rw [h3]
    try rfl
  have hex : explicitToOf ⟨pc, some w, pk⟩ o = explicitToOf ⟨pc, none, pk⟩ o := by
    unfold explicitToOf
    rw [h2, h3]
    try rfl
  have hallow : allowMismatchedLastToOf ⟨pc, some w, pk⟩ o =
      allowMismatchedLastToOf ⟨pc, none, pk⟩ o := by
    unfold allowMismatchedLastToOf
    rw [hreq]
    try rfl
  have hprelim : preliminaryOf env ⟨pc, some w, pk⟩ o =
      preliminaryOf env ⟨pc, none, pk⟩ o := by
    unfold preliminaryOf
    rw [hreq, hex, hallow]
    try rfl
  have hfb : fallbackChannelOf env ⟨pc, some w, pk⟩ o =
      fallbackChannelOf env ⟨pc, none, pk⟩ o := by
    unfold fallbackChannelOf
    rw [hprelim, h3]
    try rfl
  have hresv : resolvedOf env ⟨pc, some w, pk⟩ o =
      resolvedOf env ⟨pc, none, pk⟩ o := by
    unfold resolvedOf
    rw [hfb, hprelim, hreq, hex, hallow]
    try rfl
  have hch : channelOf env ⟨pc, some w, pk⟩ o = channelOf env ⟨pc, none, pk⟩ o := by
    unfold channelOf
    rw [hresv, hfb]
    try rfl
  have hacc : accountIdOf env agentId ⟨pc, some w, pk⟩ o =
      accountIdOf env agentId ⟨pc, none, pk⟩ o := by
    unfold accountIdOf
    rw [hresv, hch]
    try rfl
  have htid : threadIdOf env ⟨pc, some w, pk⟩ o =
      threadIdOf env ⟨pc, none, pk⟩ o := by
    unfold threadIdOf
    rw [hresv]
    try rfl
  have hdock : mainDockArgs env agentId ⟨pc, some w, pk⟩ o =
      mainDockArgs env agentId ⟨pc, none, pk⟩ o := by
    unfold mainDockArgs
    rw [hresv, hch, hacc]
    try rfl
  have hmain : mainPathResult env agentId ⟨pc, some w, pk⟩ o =
      mainPathResult env agentId ⟨pc, none, pk⟩ o := by
    unfold mainPathResult
    rw [hresv, hch, hacc, htid, hdock]
    try rfl
  unfold resolveDeliveryTarget
  rw [hosc, hmain]

/-- C10 witness: a whitespace-only recipient override resolves exactly like an
absent one. -/
theorem whitespace_to_treated_as_absent_witness :
    resolveDeliveryTarget envT "main" ⟨none, some "  ", none⟩ ⟨none, none⟩ =
      resolveDeliveryTarget envT "main" ⟨none, none, none⟩ ⟨none, none⟩ :=
  whitespace_to_treated_as_absent envT "main" none "  " none ⟨none, none⟩ (by decide)

end QVerisBot
